import Mathlib

/-!
Shallow embedding of the macromind-backend economic-intelligence core
(`app/data_fetcher.py`, `app/agent.py`, `app/config.py`, `api/indicators.py`).

Conventions of the embedding:
* Python floats are modelled as `ℚ`; Python `round(x, 2)` is modelled by
  `round2` (round to the nearest hundredth; the tie-breaking direction of
  binary-float rounding is irrelevant to every statement proved here).
* Python dicts (insertion ordered, unique keys) are modelled as association
  lists `List (String × α)` iterated in order.
* Wall-clock reads (`datetime.now().isoformat()`) are modelled by an explicit
  `now : String` parameter threaded to the functions that call them.
* Python f-string rendering of a number is modelled by `fmtNum`; no theorem
  below depends on the exact decimal rendering, only on it being a function
  of the value.
-/

set_option autoImplicit false

namespace MacroMind

/-- `app/models.py` `EconomicIndicator`. -/
structure EconomicIndicator where
  series_id : String
  name : String
  latest_value : ℚ
  previous_value : ℚ
  change_percent : ℚ
  date : String
  trend : String
  deriving Repr, DecidableEq

/-- `app/models.py` `AgentInsight`. -/
structure AgentInsight where
  timestamp : String
  economic_health : String
  key_concerns : List String
  opportunities : List String
  confidence : ℚ
  summary : String
  deriving Repr, DecidableEq

/-- `app/models.py` `AlertMessage`. -/
structure AlertMessage where
  severity : String
  indicator : String
  message : String
  timestamp : String
  deriving Repr, DecidableEq

/-- A snapshot set: the Python dict `Dict[str, EconomicIndicator]` as an
insertion-ordered association list. -/
abbrev SnapshotSet := List (String × EconomicIndicator)

/-- Python `indicators.get(k)` / `indicators[k]` on a dict. -/
def lookupInd (inds : SnapshotSet) (k : String) : Option EconomicIndicator :=
  (List.find? (fun p => p.1 = k) inds).map (fun p => p.2)

/-- Rendering of a numeric value inside a message string; stands for Python's
f-string formatting of a float. The claims below never depend on the digits,
only on the rendering being a pure function of the value. -/
def fmtNum (q : ℚ) : String := toString q

/-- Python `round(x, 2)`: round to two decimal places. -/
def round2 (q : ℚ) : ℚ := (round (q * 100) : ℤ) / 100

/-- One element of the FRED `observations` array: its `value` is either the
missing-data marker `"."` or a parseable number. -/
inductive ObsValue where
  | missing
  | num (q : ℚ)
  deriving Repr, DecidableEq

/-- `float(obs["value"]) if obs["value"] != "." else 0`
(`app/data_fetcher.py` lines 39-40). -/
def ObsValue.toVal : ObsValue → ℚ
  | .missing => 0
  | .num q => q

structure Observation where
  value : ObsValue
  date : String
  deriving Repr, DecidableEq

/-- The dict returned by a successful `fetch_latest_data`
(`app/data_fetcher.py` lines 44-51). -/
structure FetchResult where
  series_id : String
  latest_value : ℚ
  previous_value : ℚ
  change_percent : ℚ
  date : String
  trend : String
  deriving Repr, DecidableEq

/-- The raw (unrounded) change percent computed at
`app/data_fetcher.py` line 42. -/
def raw_change_percent (latest_val prev_val : ℚ) : ℚ :=
  if prev_val ≠ 0 then (latest_val - prev_val) / prev_val * 100 else 0

/-- `FREDDataFetcher.fetch_latest_data` (`app/data_fetcher.py` lines 35-53),
restricted to its pure data path: the HTTP exchange is abstracted into the
decoded `observations` list (already sorted newest first by the request's
`sort_order=desc`); the exception path (network error, malformed payload)
returns `none` upstream of this function. -/
def fetch_latest_data (series_id : String) : List Observation → Option FetchResult
  | latest :: previous :: _ =>
    let latest_val := latest.value.toVal
    let prev_val := previous.value.toVal
    let change_percent := raw_change_percent latest_val prev_val
    some { series_id := series_id
           latest_value := latest_val
           previous_value := prev_val
           change_percent := round2 change_percent
           date := latest.date
           trend := if change_percent > 1/10 then "up"
                    else if change_percent < -(1/10) then "down"
                    else "stable" }
  | _ => none

/-- `CORE_INDICATORS` from `app/config.py`: key, series id, display name. -/
structure IndicatorConfig where
  series_id : String
  name : String
  deriving Repr, DecidableEq

def CORE_INDICATORS : List (String × IndicatorConfig) :=
  [("GDP", ⟨"GDP", "Gross Domestic Product"⟩),
   ("UNEMPLOYMENT", ⟨"UNRATE", "Unemployment Rate"⟩),
   ("INFLATION", ⟨"CPIAUCSL", "Consumer Price Index"⟩),
   ("FED_FUNDS", ⟨"FEDFUNDS", "Federal Funds Rate"⟩),
   ("CONSUMER_SENTIMENT", ⟨"UMCSENT", "Consumer Sentiment"⟩)]

/-- `update_economic_data` (`app/data_fetcher.py` lines 62-82). `fetched` is
the result of `data_fetcher.fetch_latest_data(config["series_id"])` per series;
`cache` is the value of the global `economic_data_cache` before the cycle. The
function returns the value stored into `economic_data_cache` by the cycle:
the dict built from the successful fetches only — the incoming cache is never
read. -/
def update_economic_data (fetched : String → Option FetchResult)
    (_cache : SnapshotSet) : SnapshotSet :=
  CORE_INDICATORS.foldl
    (fun indicators p =>
      match fetched p.2.series_id with
      | some d =>
        indicators ++ [(p.1,
          { series_id := d.series_id
            name := p.2.name
            latest_value := d.latest_value
            previous_value := d.previous_value
            change_percent := d.change_percent
            date := d.date
            trend := d.trend })]
      | none => indicators)
    []

/-- `EconomicIntelligenceAgent._score_employment` (`app/agent.py` lines 52-67). -/
def score_employment : Option EconomicIndicator → Option ℚ
  | none => none
  | some unemployment =>
    let rate := unemployment.latest_value
    some (if rate ≤ 35/10 then 10
          else if rate ≤ 45/10 then 8
          else if rate ≤ 6 then 6
          else if rate ≤ 8 then 4
          else 2)

/-- `EconomicIntelligenceAgent._score_inflation` (`app/agent.py` lines 69-83). -/
def score_inflation : Option EconomicIndicator → Option ℚ
  | none => none
  | some cpi =>
    let change := |cpi.change_percent|
    some (if change ≤ 5/2 then 9
          else if change ≤ 4 then 7
          else if change ≤ 6 then 5
          else 3)

/-- `EconomicIntelligenceAgent._score_growth` (`app/agent.py` lines 85-100). -/
def score_growth : Option EconomicIndicator → Option ℚ
  | none => none
  | some gdp =>
    let change := gdp.change_percent
    some (if change ≥ 3 then 9
          else if change ≥ 2 then 7
          else if change ≥ 1 then 6
          else if change ≥ 0 then 4
          else 2)

/-- `EconomicIntelligenceAgent._score_sentiment` (`app/agent.py` lines 102-117). -/
def score_sentiment : Option EconomicIndicator → Option ℚ
  | none => none
  | some sentiment =>
    let value := sentiment.latest_value
    some (if value ≥ 100 then 9
          else if value ≥ 90 then 7
          else if value ≥ 80 then 6
          else if value ≥ 70 then 4
          else 3)

/-- `EconomicIntelligenceAgent._score_monetary_policy` (`app/agent.py` lines 119-135). -/
def score_monetary_policy : Option EconomicIndicator → Option ℚ
  | none => none
  | some fed_funds =>
    let rate := fed_funds.latest_value
    let trend := fed_funds.trend
    some (if rate ≤ 2 ∧ trend = "stable" then 8
          else if rate ≤ 5 ∧ trend = "up" then 6
          else if rate > 5 then 4
          else 7)

/-- The `scores` list and `overall_score` of
`analyze_economic_conditions` (`app/agent.py` lines 17-26): the mean of the
sub-scores that are present, `5.0` when none is. -/
def overall_score (indicators : SnapshotSet) : ℚ :=
  let scores :=
    [score_employment (lookupInd indicators "UNEMPLOYMENT"),
     score_inflation (lookupInd indicators "INFLATION"),
     score_growth (lookupInd indicators "GDP"),
     score_sentiment (lookupInd indicators "CONSUMER_SENTIMENT"),
     score_monetary_policy (lookupInd indicators "FED_FUNDS")].filterMap id
  if scores = [] then 5 else scores.sum / scores.length

/-- `EconomicIntelligenceAgent._identify_concerns` (`app/agent.py` lines 137-168). -/
def identify_concerns (indicators : SnapshotSet) : List String :=
  (match lookupInd indicators "UNEMPLOYMENT" with
   | some unemployment =>
     if unemployment.latest_value > 6 then
       ["High unemployment at " ++ fmtNum unemployment.latest_value ++ "%"]
     else if unemployment.trend = "up" then
       ["Rising unemployment trend"]
     else []
   | none => []) ++
  (match lookupInd indicators "INFLATION" with
   | some inflation =>
     if |inflation.change_percent| > 5 then
       ["High inflation volatility: " ++ fmtNum inflation.change_percent ++ "%"]
     else []
   | none => []) ++
  (match lookupInd indicators "GDP" with
   | some gdp =>
     if gdp.change_percent < 0 then ["Negative GDP growth"] else []
   | none => []) ++
  (match lookupInd indicators "CONSUMER_SENTIMENT" with
   | some sentiment =>
     if sentiment.latest_value < 70 then ["Low consumer confidence"] else []
   | none => []) ++
  (match lookupInd indicators "FED_FUNDS" with
   | some fed_funds =>
     if fed_funds.latest_value > 6 then
       ["High interest rates constraining growth"]
     else []
   | none => [])

/-- `EconomicIntelligenceAgent._identify_opportunities` (`app/agent.py` lines 170-205). -/
def identify_opportunities (indicators : SnapshotSet) : List String :=
  (match lookupInd indicators "UNEMPLOYMENT" with
   | some unemployment =>
     if unemployment.latest_value < 4 then
       ["Strong labor market supports consumer spending"]
     else if unemployment.trend = "down" then
       ["Improving employment conditions"]
     else []
   | none => []) ++
  (match lookupInd indicators "FED_FUNDS" with
   | some fed_funds =>
     if fed_funds.trend = "down" then
       ["Easing monetary policy supports growth"]
     else if fed_funds.latest_value < 3 then
       ["Low interest rates support investment"]
     else []
   | none => []) ++
  (match lookupInd indicators "CONSUMER_SENTIMENT" with
   | some sentiment =>
     if sentiment.trend = "up" then
       ["Improving consumer confidence"]
     else if sentiment.latest_value > 90 then
       ["High consumer confidence drives spending"]
     else []
   | none => []) ++
  (match lookupInd indicators "GDP" with
   | some gdp =>
     if gdp.change_percent > 5/2 then
       ["Strong economic growth momentum"]
     else []
   | none => []) ++
  (match lookupInd indicators "INFLATION" with
   | some inflation =>
     if |inflation.change_percent| < 2 then
       ["Stable inflation supports economic planning"]
     else []
   | none => [])

/-- `EconomicIntelligenceAgent._generate_summary` (`app/agent.py` lines 207-234). -/
def generate_summary (health : String) (indicators : SnapshotSet)
    (concerns opportunities : List String) : String :=
  let summary_parts := ["Economic health is currently " ++ health ++ "."]
  let summary_parts := summary_parts ++
    (if concerns ≠ [] then
      ["Key concerns include: " ++ String.intercalate ", " (concerns.take 2) ++ "."]
     else [])
  let summary_parts := summary_parts ++
    (if opportunities ≠ [] then
      ["Opportunities: " ++ String.intercalate ", " (opportunities.take 2) ++ "."]
     else [])
  let context_parts :=
    (match lookupInd indicators "UNEMPLOYMENT" with
     | some u => ["unemployment at " ++ fmtNum u.latest_value ++ "%"]
     | none => []) ++
    (match lookupInd indicators "INFLATION" with
     | some i => ["inflation trend at " ++ fmtNum i.change_percent ++ "%"]
     | none => []) ++
    (match lookupInd indicators "FED_FUNDS" with
     | some f => ["fed funds rate at " ++ fmtNum f.latest_value ++ "%"]
     | none => [])
  let summary_parts := summary_parts ++
    (if context_parts ≠ [] then
      ["Current conditions: " ++ String.intercalate ", " context_parts ++ "."]
     else [])
  String.intercalate " " summary_parts

/-- `EconomicIntelligenceAgent.analyze_economic_conditions`
(`app/agent.py` lines 14-50). `now` stands for the
`datetime.now().isoformat()` wall-clock read at line 44. -/
def analyze_economic_conditions (now : String) (indicators : SnapshotSet) :
    AgentInsight :=
  let overall := overall_score indicators
  let health := if overall ≥ 7 then "strong"
                else if overall ≥ 5 then "moderate"
                else "weak"
  let concerns := identify_concerns indicators
  let opportunities := identify_opportunities indicators
  { timestamp := now
    economic_health := health
    key_concerns := concerns
    opportunities := opportunities
    confidence := min (overall / 10) 1
    summary := generate_summary health indicators concerns opportunities }

/-- The alerts appended for one `(key, indicator)` iteration of the loop in
`EconomicIntelligenceAgent.check_alerts` (`app/agent.py` lines 241-283):
the high-change alert first, then the four key-specific threshold alerts. -/
def alertsFor (now key : String) (indicator : EconomicIndicator) :
    List AlertMessage :=
  (if |indicator.change_percent| > 10 then
    [{ severity := if |indicator.change_percent| > 20 then "critical" else "warning"
       indicator := indicator.name
       message := indicator.name ++ " changed by " ++ fmtNum indicator.change_percent ++ "%"
       timestamp := now }]
   else []) ++
  (if key = "UNEMPLOYMENT" ∧ indicator.latest_value > 7 then
    [{ severity := "critical"
       indicator := indicator.name
       message := "Unemployment rate high at " ++ fmtNum indicator.latest_value ++ "%"
       timestamp := now }]
   else []) ++
  (if key = "INFLATION" ∧ |indicator.change_percent| > 6 then
    [{ severity := "warning"
       indicator := indicator.name
       message := "High inflation volatility: " ++ fmtNum indicator.change_percent ++ "%"
       timestamp := now }]
   else []) ++
  (if key = "FED_FUNDS" ∧ indicator.latest_value > 6 then
    [{ severity := "warning"
       indicator := indicator.name
       message := "Federal funds rate elevated at " ++ fmtNum indicator.latest_value ++ "%"
       timestamp := now }]
   else []) ++
  (if key = "CONSUMER_SENTIMENT" ∧ indicator.latest_value < 60 then
    [{ severity := "warning"
       indicator := indicator.name
       message := "Consumer sentiment low at " ++ fmtNum indicator.latest_value
       timestamp := now }]
   else [])

/-- `EconomicIntelligenceAgent.check_alerts` (`app/agent.py` lines 236-285):
the loop appends, per indicator in dict order, exactly the alerts of
`alertsFor`. `now` stands for the `datetime.now().isoformat()` read at
line 239 (one read, shared by all alerts of the pass). -/
def check_alerts (now : String) (indicators : SnapshotSet) : List AlertMessage :=
  indicators.flatMap (fun p => alertsFor now p.1 p.2)

/-- `EconomicIntelligenceAgent.get_trading_signals` (`app/agent.py`
lines 287-325). The returned dict assigns at most once per key, in the order
bonds, equities, dollar. -/
def get_trading_signals (indicators : SnapshotSet) : List (String × String) :=
  (match lookupInd indicators "FED_FUNDS" with
   | some fed_funds =>
     [("bonds",
       if fed_funds.trend = "up" then "SELL - Rising rates hurt bond prices"
       else if fed_funds.trend = "down" then "BUY - Falling rates support bond prices"
       else "HOLD - Stable rates")]
   | none => []) ++
  (match lookupInd indicators "GDP", lookupInd indicators "UNEMPLOYMENT" with
   | some gdp, some unemployment =>
     [("equities",
       if gdp.change_percent > 2 ∧ unemployment.latest_value < 5 then
         "BUY - Strong growth and employment"
       else if gdp.change_percent < 0 ∨ unemployment.latest_value > 7 then
         "SELL - Weak economic conditions"
       else "HOLD - Mixed signals")]
   | _, _ => []) ++
  (match lookupInd indicators "FED_FUNDS", lookupInd indicators "GDP" with
   | some fed_funds, some gdp =>
     [("dollar",
       if fed_funds.trend = "up" ∧ gdp.change_percent > 3/2 then
         "BUY - Rising rates and growth support USD"
       else if fed_funds.trend = "down" ∧ gdp.change_percent < 1 then
         "SELL - Falling rates and weak growth"
       else "HOLD - Neutral conditions")]
   | _, _ => [])

/-- Python `str.upper()`, character by character. (Extensionally the same as
`String.toUpper`; written over `String.data` so that it reduces in the
kernel. All keys in this system are ASCII.) -/
def strUpper (s : String) : String := ⟨s.data.map Char.toUpper⟩

/-- Python `str.lower()`, character by character. -/
def strLower (s : String) : String := ⟨s.data.map Char.toLower⟩

/-- `get_indicator` (`api/indicators.py` lines 19-28): uppercase the requested
name, then dict lookup; a miss raises a 404, modelled as `.error`. -/
def get_indicator (data : SnapshotSet) (indicator_name : String) :
    Except String EconomicIndicator :=
  match lookupInd data (strUpper indicator_name) with
  | some i => .ok i
  | none => .error ("Indicator " ++ strUpper indicator_name ++ " not found")

/-! ### Auxiliary material for the claim theorems -/

/-- The keys of `CORE_INDICATORS`: the only keys a refresh cycle ever stores. -/
def coreKeys : List String := CORE_INDICATORS.map Prod.fst

/-- A concrete snapshot (unemployment at 8%, above the 7% alert threshold). -/
def sampleIndicator : EconomicIndicator :=
  { series_id := "UNRATE"
    name := "Unemployment Rate"
    latest_value := 8
    previous_value := 8
    change_percent := 1
    date := "2024-01-01"
    trend := "up" }

/-- A concrete snapshot breaching both the swing threshold (|25| > 20) and the
unemployment level threshold (8 > 7). -/
def crisisIndicator : EconomicIndicator :=
  { series_id := "UNRATE"
    name := "Unemployment Rate"
    latest_value := 8
    previous_value := 6
    change_percent := 25
    date := "2024-01-01"
    trend := "up" }

/-- An unemployment snapshot whose rate is `r` (the employment sub-score reads
only `latest_value`). -/
def indWithRate (r : ℚ) : EconomicIndicator :=
  { series_id := "UNRATE"
    name := "Unemployment Rate"
    latest_value := r
    previous_value := r
    change_percent := 0
    date := "2024-01-01"
    trend := "stable" }

/-- An alert with the timestamp field dropped. -/
def stripTimestamp (a : AlertMessage) : String × String × String :=
  (a.severity, a.indicator, a.message)

/-- Spec-side reading of the swing alert of claim C5: for one indicator,
an alert fires iff `|change_percent| > 10`, with severity `critical` iff
`|change_percent| > 20` and `warning` otherwise. -/
def swing_alert_spec (now : String) (i : EconomicIndicator) : List AlertMessage :=
  if |i.change_percent| > 10 then
    [{ severity := if |i.change_percent| > 20 then "critical" else "warning"
       indicator := i.name
       message := i.name ++ " changed by " ++ fmtNum i.change_percent ++ "%"
       timestamp := now }]
  else []

/-- Spec-side reading of the threshold alert of claim C5: for one indicator,
an alert fires iff the indicator is UNEMPLOYMENT with value above 7.0
(critical), INFLATION with absolute change above 6.0 (warning), FED_FUNDS
with value above 6.0 (warning), or CONSUMER_SENTIMENT with value below 60
(warning). -/
def threshold_alert_spec (now key : String) (i : EconomicIndicator) :
    List AlertMessage :=
  if key = "UNEMPLOYMENT" ∧ i.latest_value > 7 then
    [{ severity := "critical"
       indicator := i.name
       message := "Unemployment rate high at " ++ fmtNum i.latest_value ++ "%"
       timestamp := now }]
  else if key = "INFLATION" ∧ |i.change_percent| > 6 then
    [{ severity := "warning"
       indicator := i.name
       message := "High inflation volatility: " ++ fmtNum i.change_percent ++ "%"
       timestamp := now }]
  else if key = "FED_FUNDS" ∧ i.latest_value > 6 then
    [{ severity := "warning"
       indicator := i.name
       message := "Federal funds rate elevated at " ++ fmtNum i.latest_value ++ "%"
       timestamp := now }]
  else if key = "CONSUMER_SENTIMENT" ∧ i.latest_value < 60 then
    [{ severity := "warning"
       indicator := i.name
       message := "Consumer sentiment low at " ++ fmtNum i.latest_value
       timestamp := now }]
  else []

/-- Per-indicator agreement between the loop body of `check_alerts` and the
swing-then-threshold decomposition claimed by the spec. -/
lemma alertsFor_eq_spec (now key : String) (i : EconomicIndicator) :
    alertsFor now key i = swing_alert_spec now i ++ threshold_alert_spec now key i := by
  unfold alertsFor swing_alert_spec threshold_alert_spec
  by_cases h1 : key = "UNEMPLOYMENT"
  · subst h1; simp +decide
  · by_cases h2 : key = "INFLATION"
    · subst h2; simp +decide
    · by_cases h3 : key = "FED_FUNDS"
      · subst h3; simp +decide
      · by_cases h4 : key = "CONSUMER_SENTIMENT"
        · subst h4; simp +decide
        · simp [h1, h2, h3, h4]

/-- The timestamp parameter only ever lands in the timestamp field of an
alert: stripping timestamps makes `alertsFor` independent of `now`. -/
lemma alertsFor_strip (t1 t2 key : String) (i : EconomicIndicator) :
    (alertsFor t1 key i).map stripTimestamp = (alertsFor t2 key i).map stripTimestamp := by
  unfold alertsFor
  split_ifs <;> rfl

/-! ### Claim theorems -/

/-- C1, counterexample: calling `analyze_economic_conditions` (resp.
`check_alerts`) twice on the same unchanged snapshot set does NOT yield
identical results in all fields — the two calls read the wall clock at
different instants and the timestamp fields differ. -/
theorem c1_counterexample :
    analyze_economic_conditions "2024-05-01T10:00:00" []
      ≠ analyze_economic_conditions "2024-05-01T10:00:05" []
    ∧ check_alerts "2024-05-01T10:00:00" [("UNEMPLOYMENT", sampleIndicator)]
      ≠ check_alerts "2024-05-01T10:00:05" [("UNEMPLOYMENT", sampleIndicator)] := by
  constructor
  · intro h
    have ht := congrArg AgentInsight.timestamp h
    simp [analyze_economic_conditions] at ht
  · intro h
    simp +decide [check_alerts, alertsFor, sampleIndicator] at h

/-- C1, amended: the three derivation operations are deterministic in the
snapshot set except for the timestamp fields, which record the wall-clock
reading of the call. Two calls on the same unchanged snapshot set agree on
every field of the insight other than `timestamp`, on every alert with its
timestamp stripped, and exactly on the signal map; the timestamp fields
equal the clock reading of their own call. -/
theorem c1_amended_pure_modulo_timestamp (t1 t2 : String) (inds : SnapshotSet) :
    ((analyze_economic_conditions t1 inds).economic_health
        = (analyze_economic_conditions t2 inds).economic_health
     ∧ (analyze_economic_conditions t1 inds).key_concerns
        = (analyze_economic_conditions t2 inds).key_concerns
     ∧ (analyze_economic_conditions t1 inds).opportunities
        = (analyze_economic_conditions t2 inds).opportunities
     ∧ (analyze_economic_conditions t1 inds).confidence
        = (analyze_economic_conditions t2 inds).confidence
     ∧ (analyze_economic_conditions t1 inds).summary
        = (analyze_economic_conditions t2 inds).summary)
    ∧ (check_alerts t1 inds).map stripTimestamp = (check_alerts t2 inds).map stripTimestamp
    ∧ get_trading_signals inds = get_trading_signals inds
    ∧ (analyze_economic_conditions t1 inds).timestamp = t1
    ∧ (check_alerts t1 inds).map AlertMessage.timestamp
        = (check_alerts t1 inds).map (fun _ => t1) := by
  refine ⟨⟨rfl, rfl, rfl, rfl, rfl⟩, ?_, rfl, rfl, ?_⟩
  · induction inds with
    | nil => rfl
    | cons p tl ih =>
      simp only [check_alerts, List.flatMap_cons, List.map_append] at ih ⊢
      rw [ih]
      congr 1
      exact alertsFor_strip t1 t2 p.1 p.2
  · induction inds with
    | nil => rfl
    | cons p tl ih =>
      simp only [check_alerts, List.flatMap_cons, List.map_append] at ih ⊢
      rw [ih]
      congr 1
      unfold alertsFor
      split_ifs <;> rfl

/-- C2, counterexample: a refresh cycle in which every per-indicator fetch
fails does not leave the previous snapshot set in place — it stores the
empty set, here starting from a non-empty previous set. -/
theorem c2_counterexample :
    update_economic_data (fun _ => none) [("GDP", sampleIndicator)] = []
    ∧ update_economic_data (fun _ => none) [("GDP", sampleIndicator)]
        ≠ [("GDP", sampleIndicator)] := by
  constructor
  · rfl
  · intro h
    simp [update_economic_data, CORE_INDICATORS] at h

/-- C2, amended: a refresh cycle in which every per-indicator fetch fails
replaces the stored snapshot set with the empty set (discarding the previous
set); the loop itself does not crash — the cycle still completes and stores
a value. -/
theorem c2_amended_failed_cycle_clears (fetched : String → Option FetchResult)
    (cache : SnapshotSet) (h : ∀ s, fetched s = none) :
    update_economic_data fetched cache = [] := by
  simp [update_economic_data, CORE_INDICATORS, h]

/-- Witness for `c2_amended_failed_cycle_clears` at a concrete failing fetch
and a concrete non-empty previous cache. -/
theorem c2_amended_witness :
    update_economic_data (fun _ => none) [("GDP", sampleIndicator)] = [] :=
  c2_amended_failed_cycle_clears (fun _ => none) [("GDP", sampleIndicator)]
    (fun _ => rfl)

/-- C3: for numeric observation pairs, the stored `change_percent` is
`(latest - previous) / previous * 100` rounded to 2 decimals when `previous`
is nonzero and `0` when `previous = 0`; in particular it is `10` at
`(110, 100)` and `0` at `(5, 0)`. -/
theorem c3_change_percent :
    (∀ (sid : String) (lat prev : ℚ) (d1 d0 : String) (rest : List Observation),
      (fetch_latest_data sid (⟨.num lat, d1⟩ :: ⟨.num prev, d0⟩ :: rest)).map
          (fun r => r.change_percent)
        = some (if prev = 0 then 0 else round2 ((lat - prev) / prev * 100)))
    ∧ (fetch_latest_data "X" [⟨.num 110, "d1"⟩, ⟨.num 100, "d0"⟩]).map
        (fun r => r.change_percent) = some 10
    ∧ (fetch_latest_data "X" [⟨.num 5, "d1"⟩, ⟨.num 0, "d0"⟩]).map
        (fun r => r.change_percent) = some 0 := by
  refine ⟨?_, ?_, ?_⟩
  · intro sid lat prev d1 d0 rest
    by_cases h : prev = 0
    · simp [fetch_latest_data, raw_change_percent, ObsValue.toVal, h, round2]
    · simp [fetch_latest_data, raw_change_percent, ObsValue.toVal, h]
  · norm_num [fetch_latest_data, raw_change_percent, ObsValue.toVal, round2, round_eq]
  · norm_num [fetch_latest_data, raw_change_percent, ObsValue.toVal, round2, round_eq]

/-- C4, counterexample: the trend field of a fetched snapshot is NOT
determined by the snapshot's (rounded) `change_percent` field with the ±0.1
deadband: at `latest = 100.104`, `previous = 100` the fetcher stores
`change_percent = 0.1` (not `> 0.1`) yet `trend = "up"`, because the trend
is computed from the unrounded change percent `0.104`. -/
theorem c4_counterexample :
    ¬ (∀ (sid : String) (obs : List Observation) (r : FetchResult),
        fetch_latest_data sid obs = some r →
          ((r.trend = "up" ↔ r.change_percent > 1/10)
           ∧ (r.trend = "down" ↔ r.change_percent < -(1/10))
           ∧ (r.trend = "stable" ↔
               ¬ r.change_percent > 1/10 ∧ ¬ r.change_percent < -(1/10)))) := by
  intro hclaim
  have hfetch : fetch_latest_data "GDP" [⟨.num (12513/125), "d1"⟩, ⟨.num 100, "d0"⟩]
      = some { series_id := "GDP", latest_value := 12513/125, previous_value := 100,
               change_percent := 1/10, date := "d1", trend := "up" } := by
    norm_num [fetch_latest_data, raw_change_percent, ObsValue.toVal, round2, round_eq]
  have h2 := (hclaim _ _ _ hfetch).1
  norm_num at h2

/-- C4, amended: the trend of a fetched snapshot is a pure function of the
UNROUNDED change percent `p = (latest - previous) / previous * 100` (0 when
`previous = 0`) with the ±0.1 deadband: `trend = "up"` iff `p > 0.1`,
`"down"` iff `p < -0.1`, else `"stable"`; the stored `change_percent` field
is the rounded value and may sit on the deadband boundary while the trend is
`"up"` or `"down"`. -/
theorem c4_amended_trend_raw_deadband (sid : String) (latest previous : Observation)
    (rest : List Observation) (r : FetchResult)
    (h : fetch_latest_data sid (latest :: previous :: rest) = some r) :
    (r.trend = "up" ↔ raw_change_percent latest.value.toVal previous.value.toVal > 1/10)
    ∧ (r.trend = "down" ↔ raw_change_percent latest.value.toVal previous.value.toVal < -(1/10))
    ∧ (r.trend = "stable" ↔
        ¬ raw_change_percent latest.value.toVal previous.value.toVal > 1/10
        ∧ ¬ raw_change_percent latest.value.toVal previous.value.toVal < -(1/10)) := by
  simp only [fetch_latest_data, Option.some.injEq] at h
  subst h
  split_ifs with h1 h2 <;> dsimp only
  · refine ⟨iff_of_true rfl h1, iff_of_false (by decide) (by linarith),
      iff_of_false (by decide) ?_⟩
    intro hc
    exact hc.1 h1
  · refine ⟨iff_of_false (by decide) h1, iff_of_true rfl h2,
      iff_of_false (by decide) ?_⟩
    intro hc
    exact hc.2 h2
  · exact ⟨iff_of_false (by decide) h1, iff_of_false (by decide) h2,
      iff_of_true rfl ⟨h1, h2⟩⟩

/-- Witness for `c4_amended_trend_raw_deadband` at the concrete observation
pair `(103, 100)` (raw change percent `3`). -/
theorem c4_amended_witness :
    ((⟨"GDP", 103, 100, 3, "d1", "up"⟩ : FetchResult).trend = "up"
        ↔ raw_change_percent (ObsValue.num 103).toVal (ObsValue.num 100).toVal > 1/10)
    ∧ ((⟨"GDP", 103, 100, 3, "d1", "up"⟩ : FetchResult).trend = "down"
        ↔ raw_change_percent (ObsValue.num 103).toVal (ObsValue.num 100).toVal < -(1/10))
    ∧ ((⟨"GDP", 103, 100, 3, "d1", "up"⟩ : FetchResult).trend = "stable"
        ↔ ¬ raw_change_percent (ObsValue.num 103).toVal (ObsValue.num 100).toVal > 1/10
          ∧ ¬ raw_change_percent (ObsValue.num 103).toVal (ObsValue.num 100).toVal < -(1/10)) :=
  c4_amended_trend_raw_deadband "GDP" ⟨.num 103, "d1"⟩ ⟨.num 100, "d0"⟩ []
    ⟨"GDP", 103, 100, 3, "d1", "up"⟩
    (by norm_num [fetch_latest_data, raw_change_percent, ObsValue.toVal, round2, round_eq])

/-- C5: the alert list is, per present indicator in snapshot-set order, the
swing alert (fires iff `|change_percent| > 10`, critical iff `> 20` else
warning) followed by the independent per-key threshold alert (UNEMPLOYMENT
value > 7 critical; INFLATION |change| > 6 warning; FED_FUNDS value > 6
warning; CONSUMER_SENTIMENT value < 60 warning); a single indicator can
produce two alerts in one pass. -/
theorem c5_alert_engine (now : String) (inds : SnapshotSet) :
    check_alerts now inds
      = inds.flatMap (fun p => swing_alert_spec now p.2 ++ threshold_alert_spec now p.1 p.2)
    ∧ (check_alerts now [("UNEMPLOYMENT", crisisIndicator)]).length = 2 := by
  constructor
  · simp only [check_alerts]
    congr 1
    funext p
    exact alertsFor_eq_spec now p.1 p.2
  · simp +decide [check_alerts, alertsFor, crisisIndicator]

/-- C6: for the empty snapshot set the insight has overall score 5 (the
default with no sub-scores), health `moderate`, empty concerns, empty
opportunities and confidence 1/2. -/
theorem c6_empty_insight (now : String) :
    (analyze_economic_conditions now []).economic_health = "moderate"
    ∧ (analyze_economic_conditions now []).key_concerns = []
    ∧ (analyze_economic_conditions now []).opportunities = []
    ∧ (analyze_economic_conditions now []).confidence = 1/2
    ∧ overall_score [] = 5 := by
  refine ⟨?_, rfl, rfl, ?_, ?_⟩ <;>
    norm_num [analyze_economic_conditions, overall_score, lookupInd,
      score_employment, score_inflation, score_growth, score_sentiment,
      score_monetary_policy]

/-- C7: the employment sub-score is monotonically non-increasing in the
unemployment rate when the indicator is present; in particular
score(3.5) = 10, score(3.6) = 8 and score(8.1) = 2. -/
theorem c7_employment_score (i1 i2 : EconomicIndicator)
    (h : i1.latest_value ≤ i2.latest_value) :
    (score_employment (some i2)).getD 0 ≤ (score_employment (some i1)).getD 0
    ∧ score_employment (some (indWithRate (7/2))) = some 10
    ∧ score_employment (some (indWithRate (18/5))) = some 8
    ∧ score_employment (some (indWithRate (81/10))) = some 2 := by
  refine ⟨?_, ?_, ?_, ?_⟩
  · simp only [score_employment, Option.getD_some]
    split_ifs <;> linarith
  · norm_num [score_employment, indWithRate]
  · norm_num [score_employment, indWithRate]
  · norm_num [score_employment, indWithRate]

/-- Witness for `c7_employment_score` at the concrete rates 3.5 ≤ 3.6. -/
theorem c7_employment_score_witness :
    (indWithRate (7/2)).latest_value ≤ (indWithRate (18/5)).latest_value
    ∧ ((score_employment (some (indWithRate (18/5)))).getD 0
        ≤ (score_employment (some (indWithRate (7/2)))).getD 0
       ∧ score_employment (some (indWithRate (7/2))) = some 10
       ∧ score_employment (some (indWithRate (18/5))) = some 8
       ∧ score_employment (some (indWithRate (81/10))) = some 2) :=
  ⟨by norm_num [indWithRate],
   c7_employment_score (indWithRate (7/2)) (indWithRate (18/5))
     (by norm_num [indWithRate])⟩

/-- C8: the signal map contains an "equities" key iff both the GDP and the
UNEMPLOYMENT indicators are present in the snapshot set; with either absent
the key is omitted entirely. -/
theorem c8_equities_key (inds : SnapshotSet) :
    "equities" ∈ (get_trading_signals inds).map Prod.fst
      ↔ (lookupInd inds "GDP").isSome ∧ (lookupInd inds "UNEMPLOYMENT").isSome := by
  cases hf : lookupInd inds "FED_FUNDS" <;>
  cases hg : lookupInd inds "GDP" <;>
  cases hu : lookupInd inds "UNEMPLOYMENT" <;>
    simp +decide [get_trading_signals, hf, hg, hu]

/-- C9: with at least two observations the fetch returns a populated record
even when observation values carry the missing-data marker "." (coerced to
0): a missing previous value yields `change_percent = 0` and
`trend = "stable"`, a missing latest value yields `latest_value = 0`;
absence is returned exactly on fewer than two observations (the exception
path is the only other source of absence and lies outside this pure
function). -/
theorem c9_fetch_missing_marker :
    (∀ (sid : String) (latest previous : Observation) (rest : List Observation),
      ∃ r, fetch_latest_data sid (latest :: previous :: rest) = some r
        ∧ (previous.value = .missing → r.change_percent = 0 ∧ r.trend = "stable")
        ∧ (latest.value = .missing → r.latest_value = 0))
    ∧ (∀ (sid : String) (obs : List Observation),
        fetch_latest_data sid obs = none ↔ obs.length < 2) := by
  constructor
  · intro sid latest previous rest
    refine ⟨_, rfl, ?_, ?_⟩
    · intro hmiss
      refine ⟨?_, ?_⟩
      · simp [raw_change_percent, hmiss, ObsValue.toVal, round2]
      · norm_num [raw_change_percent, hmiss, ObsValue.toVal]
    · intro hmiss
      simp [hmiss, ObsValue.toVal]
  · intro sid obs
    match obs with
    | [] => simp [fetch_latest_data]
    | [a] => simp [fetch_latest_data]
    | a :: b :: t => simp [fetch_latest_data]

/-- Witness for `c9_fetch_missing_marker`: both observations carry the
missing-data marker, yet the fetch returns a populated record with
`change_percent = 0`, `trend = "stable"` and `latest_value = 0`. -/
theorem c9_fetch_missing_marker_witness :
    ∃ r, fetch_latest_data "UNRATE"
        [⟨ObsValue.missing, "2024-02-01"⟩, ⟨ObsValue.missing, "2024-01-01"⟩] = some r
      ∧ (r.change_percent = 0 ∧ r.trend = "stable") ∧ r.latest_value = 0 := by
  obtain ⟨r, h1, h2, h3⟩ := c9_fetch_missing_marker.1 "UNRATE"
    ⟨ObsValue.missing, "2024-02-01"⟩ ⟨ObsValue.missing, "2024-01-01"⟩ []
  exact ⟨r, h1, h2 rfl, h3 rfl⟩

/-- C10: the single-indicator query uppercases the requested key before the
dict lookup — it returns the snapshot stored under `upper(k)` when that key
is present and a not-found error otherwise — and for every key the system
can actually store (the configured uppercase core keys) the lowercase
spelling of a present key never yields not-found. -/
theorem c10_indicator_lookup :
    (∀ (data : SnapshotSet) (k : String) (i : EconomicIndicator),
      lookupInd data (strUpper k) = some i → get_indicator data k = .ok i)
    ∧ (∀ (data : SnapshotSet) (k : String),
        lookupInd data (strUpper k) = none →
        get_indicator data k = .error ("Indicator " ++ strUpper k ++ " not found"))
    ∧ (∀ (data : SnapshotSet) (K : String) (ind : EconomicIndicator),
        (K, ind) ∈ data → K ∈ coreKeys →
        ∃ i, get_indicator data (strLower K) = .ok i) := by
  refine ⟨?_, ?_, ?_⟩
  · intro data k i h
    unfold get_indicator
    rw [h]
  · intro data k h
    unfold get_indicator
    rw [h]
  · intro data K ind hmem hcore
    have hKK : strUpper (strLower K) = K := by
      have hK : K = "GDP" ∨ K = "UNEMPLOYMENT" ∨ K = "INFLATION" ∨ K = "FED_FUNDS"
          ∨ K = "CONSUMER_SENTIMENT" := by
        simpa [coreKeys, CORE_INDICATORS] using hcore
      rcases hK with rfl | rfl | rfl | rfl | rfl <;> decide
    have hsome : (List.find? (fun p => p.1 = K) data).isSome := by
      rw [List.find?_isSome]
      exact ⟨(K, ind), hmem, by simp⟩
    obtain ⟨p, hp⟩ := Option.isSome_iff_exists.mp hsome
    refine ⟨p.2, ?_⟩
    unfold get_indicator
    rw [hKK]
    simp [lookupInd, hp]

/-- Witness for `c10_indicator_lookup`: on a store holding only the GDP
snapshot, the query for "gdp" finds it, the query for "inflation" is a
not-found error, and the lowercase spelling of the present core key "GDP"
is found. -/
theorem c10_indicator_lookup_witness :
    get_indicator [("GDP", sampleIndicator)] "gdp" = .ok sampleIndicator
    ∧ get_indicator [("GDP", sampleIndicator)] "inflation"
        = .error ("Indicator " ++ strUpper "inflation" ++ " not found")
    ∧ ∃ i, get_indicator [("GDP", sampleIndicator)] (strLower "GDP") = .ok i :=
  ⟨c10_indicator_lookup.1 [("GDP", sampleIndicator)] "gdp" sampleIndicator rfl,
   c10_indicator_lookup.2.1 [("GDP", sampleIndicator)] "inflation" rfl,
   c10_indicator_lookup.2.2 [("GDP", sampleIndicator)] "GDP" sampleIndicator
     (by simp) (by decide)⟩

end MacroMind

